import Mathlib

/-!
Shallow embedding of the swap-progression core of the wallet-core repository:
the per-chain asset lock (`store/utils`), the Liquality HTLC swap provider and
the Thorchain vault-deposit swap provider (`src/swaps/...`).

Amounts handled by `bignumber.js` are arbitrary-precision decimals; they are
modelled as rationals (`ℚ`).  Fallible chain calls are modelled by `Except`
over an explicit environment record that fixes what each external call
returns during one invocation of a handler; the side effects a handler
performs are collected in an explicit action trace.
-/

namespace WalletCore

/-- A JavaScript error value; the providers' catch blocks dispatch on `e.name`. -/
structure JsErr where
  name : String
deriving DecidableEq

/-- A chain transaction as seen through `ChainClient.getTransactionByHash`:
JS code checks `tx && tx.confirmations && tx.confirmations > 0`, so both the
transaction itself and its `confirmations` field may be absent. -/
structure Tx where
  hash : String := ""
  confirmations : Option Nat := none
deriving DecidableEq

/-- `bignumber.js` `ROUND_DOWN` (mode 1): rounds towards zero. -/
def bnRoundDown (x : ℚ) : ℤ :=
  if 0 ≤ x then ⌊x⌋ else -⌊-x⌋

/-- `bignumber.js` default `ROUNDING_MODE` (mode 4, `ROUND_HALF_UP`):
rounds to the nearest integer, ties away from zero.  This is the mode used
by `.dp(0)` when no explicit mode is passed. -/
def bnRoundHalfUp (x : ℚ) : ℤ :=
  if 0 ≤ x then ⌊x + 1/2⌋ else -⌊-x + 1/2⌋

/-- `convertBaseAmountDecimal` (ThorchainSwapProvider.ts): converts an amount
between decimal bases; when the target has fewer decimals it divides by the
power of ten and applies `decimalPlaces(0, ROUND_DOWN)`, otherwise it
multiplies exactly. -/
def convertBaseAmountDecimal (amount : ℚ) (srcDecimal targetDecimal : ℕ) : ℚ :=
  if targetDecimal < srcDecimal then
    (bnRoundDown (amount / 10 ^ (srcDecimal - targetDecimal)) : ℚ)
  else
    amount * 10 ^ (targetDecimal - srcDecimal)

/-- The integer minimum output computed inside `makeMemo`
(ThorchainSwapProvider.ts): `new BigNumber(swap.toAmount).minus(swap.receiveFee)`
multiplied by `new BN(1).minus(swap.slippage)` and then `.dp(0)` (which uses
the BigNumber default rounding mode, `ROUND_HALF_UP`). -/
def makeMemoMinimumOutput (toAmount receiveFee slippage : ℚ) : ℤ :=
  bnRoundHalfUp ((toAmount - receiveFee) * (1 - slippage))

/-- The limit embedded in the deposit memo by `makeMemo`: the minimum output
in the destination asset's decimals, converted to the Thorchain 8-decimal
base by `convertBaseAmountDecimal`. -/
def makeMemoLimit (toAmount receiveFee slippage : ℚ) (toDecimals : ℕ) : ℚ :=
  convertBaseAmountDecimal ((makeMemoMinimumOutput toAmount receiveFee slippage : ℤ) : ℚ)
    toDecimals 8

/-! ### AssetLock (`src/store/utils.ts`, `CHAIN_LOCK` / `attemptToLockAsset` / `unlockAsset`)

The global `CHAIN_LOCK` table is modelled as a boolean valuation on keys; the
events `emitter.emit(...)` fires are collected in a list. -/

/-- Lock table: `CHAIN_LOCK[key]` is truthy iff the valuation is `true`
(an absent key is falsy, like `false`). -/
def LockTable := String → Bool

/-- Result shape of `attemptToLockAsset`. -/
structure LockAttempt where
  key : String
  success : Bool
deriving DecidableEq

/-- `attemptToLockAsset(network, walletId, asset)`: derives the key
`[network, walletId, chain].join('-')` where `chain = cryptoassets[asset].chain`
(the chain lookup is passed in as `chainOf`); returns failure if the key is
already locked, otherwise marks it locked and returns success. -/
def attemptToLockAsset (chainOf : String → String) (tbl : LockTable)
    (network walletId asset : String) : LockAttempt × LockTable :=
  let chain := chainOf asset
  let key := network ++ "-" ++ walletId ++ "-" ++ chain
  if tbl key then
    ({ key := key, success := false }, tbl)
  else
    ({ key := key, success := true }, fun k => if k = key then true else tbl k)

/-- `unlockAsset(key)`: sets `CHAIN_LOCK[key] = false` and emits
`unlock:<key>`, unconditionally.  The emitted event names are returned. -/
def unlockAsset (tbl : LockTable) (key : String) : LockTable × List String :=
  (fun k => if k = key then false else tbl k, ["unlock:" ++ key])

/-! ### Status tables and transition graphs

`_getStatuses()` of each provider, as (status, step) pairs, together with the
transition edges realised by `performNextSwapAction`'s dispatch: for each
status with a dispatch case, the statuses that the dispatched handler can
place in its returned update (soundness of the edge lists against the handler
embeddings is proved below for the embedded handlers). -/

/-- `LiqualitySwapProvider._getStatuses()`: status → `step`. -/
def liqualityStatusSteps : List (String × Nat) :=
  [("INITIATED", 0), ("INITIATION_REPORTED", 0), ("INITIATION_CONFIRMED", 0),
   ("FUNDED", 1), ("CONFIRM_COUNTER_PARTY_INITIATION", 1),
   ("READY_TO_CLAIM", 2), ("WAITING_FOR_CLAIM_CONFIRMATIONS", 2),
   ("WAITING_FOR_REFUND", 2), ("GET_REFUND", 2),
   ("WAITING_FOR_REFUND_CONFIRMATIONS", 2),
   ("REFUNDED", 3), ("SUCCESS", 3), ("QUOTE_EXPIRED", 3)]

/-- `LiqualitySwapProvider._totalSteps()`. -/
def liqualityTotalSteps : Nat := 4

/-- `ThorchainSwapProvider._getStatuses()`: status → `step`. -/
def thorchainStatusSteps : List (String × Nat) :=
  [("WAITING_FOR_APPROVE_CONFIRMATIONS", 0), ("APPROVE_CONFIRMED", 1),
   ("WAITING_FOR_SEND_CONFIRMATIONS", 1), ("WAITING_FOR_RECEIVE", 2),
   ("SUCCESS", 3), ("REFUNDED", 3)]

/-- `ThorchainSwapProvider._totalSteps()`. -/
def thorchainTotalSteps : Nat := 4

/-- Step index of a status in a status table. -/
def stepOf (tbl : List (String × Nat)) (s : String) : Nat :=
  (((tbl.find? (fun p => p.1 = s)).map Prod.snd).getD 0)

/-- Statuses with no case in `LiqualitySwapProvider.performNextSwapAction`:
the engine schedules no further action for them. -/
def liqualityTerminal : List String := ["SUCCESS", "REFUNDED", "QUOTE_EXPIRED"]

/-- Statuses with no case in `ThorchainSwapProvider.performNextSwapAction`. -/
def thorchainTerminal : List String := ["SUCCESS", "REFUNDED"]

/-- Transition edges of the Liquality provider: for each status dispatched by
`performNextSwapAction`, the statuses its handler can return.
`INITIATED` → `reportInitiation`; `INITIATION_REPORTED` → `confirmInitiation`
(which first tries `findCounterPartyInitiation`); `INITIATION_CONFIRMED` →
`fundSwap`; `FUNDED` → `findCounterPartyInitiation`;
`CONFIRM_COUNTER_PARTY_INITIATION` → `confirmCounterPartyInitiation`;
`READY_TO_CLAIM` → `claimSwap`; `WAITING_FOR_CLAIM_CONFIRMATIONS` →
`waitForClaimConfirmations`; `WAITING_FOR_REFUND` → `waitForRefund`;
`GET_REFUND` → `refundSwap`; `WAITING_FOR_REFUND_CONFIRMATIONS` →
`waitForRefundConfirmations`. -/
def liqualityEdges : List (String × String) :=
  [("INITIATED", "WAITING_FOR_REFUND"),
   ("INITIATED", "INITIATION_REPORTED"),
   ("INITIATION_REPORTED", "CONFIRM_COUNTER_PARTY_INITIATION"),
   ("INITIATION_REPORTED", "GET_REFUND"),
   ("INITIATION_REPORTED", "WAITING_FOR_REFUND"),
   ("INITIATION_REPORTED", "INITIATION_CONFIRMED"),
   ("INITIATION_CONFIRMED", "QUOTE_EXPIRED"),
   ("INITIATION_CONFIRMED", "FUNDED"),
   ("FUNDED", "CONFIRM_COUNTER_PARTY_INITIATION"),
   ("FUNDED", "GET_REFUND"),
   ("FUNDED", "WAITING_FOR_REFUND"),
   ("CONFIRM_COUNTER_PARTY_INITIATION", "READY_TO_CLAIM"),
   ("CONFIRM_COUNTER_PARTY_INITIATION", "GET_REFUND"),
   ("CONFIRM_COUNTER_PARTY_INITIATION", "WAITING_FOR_REFUND"),
   ("READY_TO_CLAIM", "GET_REFUND"),
   ("READY_TO_CLAIM", "WAITING_FOR_REFUND"),
   ("READY_TO_CLAIM", "WAITING_FOR_CLAIM_CONFIRMATIONS"),
   ("WAITING_FOR_CLAIM_CONFIRMATIONS", "SUCCESS"),
   ("WAITING_FOR_CLAIM_CONFIRMATIONS", "GET_REFUND"),
   ("WAITING_FOR_CLAIM_CONFIRMATIONS", "WAITING_FOR_REFUND"),
   ("WAITING_FOR_REFUND", "GET_REFUND"),
   ("GET_REFUND", "WAITING_FOR_REFUND_CONFIRMATIONS"),
   ("WAITING_FOR_REFUND_CONFIRMATIONS", "REFUNDED")]

/-- Transition edges of the Thorchain provider. -/
def thorchainEdges : List (String × String) :=
  [("WAITING_FOR_APPROVE_CONFIRMATIONS", "APPROVE_CONFIRMED"),
   ("APPROVE_CONFIRMED", "WAITING_FOR_SEND_CONFIRMATIONS"),
   ("WAITING_FOR_SEND_CONFIRMATIONS", "WAITING_FOR_RECEIVE"),
   ("WAITING_FOR_RECEIVE", "SUCCESS"),
   ("WAITING_FOR_RECEIVE", "REFUNDED")]

/-- Monotonicity of step indices along every edge of a transition graph. -/
def stepsMonotone (tbl : List (String × Nat)) (edges : List (String × String)) : Bool :=
  edges.all (fun e => stepOf tbl e.1 ≤ stepOf tbl e.2)

/-! ### Liquality HTLC handlers (`LiqualitySwapProvider.ts`)

Each handler is a function of an environment fixing what every external call
returns during one tick.  The result is the JS return value — `Except` for a
possibly thrown error, `Option SwapUpdate` because the handlers return
`undefined` when nothing new happened — paired with the trace of externally
visible actions the handler performed. -/

/-- Externally visible actions performed by the providers. -/
inductive Act
  | httpGet            -- HTTP request (agent order / market info / thornode)
  | getTx              -- `ChainClient.getTransactionByHash`
  | getAddr            -- `getSwapAddress`
  | genSecret          -- `fromClient.swap.generateSecret`
  | initiateSwap       -- `fromClient.swap.initiateSwap` (funds the HTLC)
  | fundTx             -- `fromClient.swap.fundSwap`
  | claimTx            -- `toClient.swap.claimSwap`
  | refundTx           -- `fromClient.swap.refundSwap`
  | sendTransaction    -- `client.chain.sendTransaction`
  | allowanceRead      -- `erc20.allowance`
  | findInitTx         -- `toClient.swap.findInitiateSwapTransaction`
  | expirationCheck    -- `handleExpirations` body runs
  | updateBalances
  | pause (ms : Nat)   -- `wait(ms)`
  | chainRead (i : Nat) -- i-th `getBlockHeight`/`getBlockByNumber` attempt
deriving DecidableEq

/-- On-chain fund-moving actions: anything that signs and broadcasts. -/
def Act.mutating : Act → Bool
  | initiateSwap | fundTx | claimTx | refundTx | sendTransaction => true
  | _ => false

/-- The partial update a transition handler returns (absent JS keys are
`none`). -/
structure SwapUpdate where
  status : Option String := none
  endTime : Option Nat := none
  toFundHash : Option String := none
  fundTxHash : Option String := none
  toClaimHash : Option String := none
  refundHash : Option String := none
  receiveTxHash : Option String := none
deriving DecidableEq

/-- JS truthiness chain `tx && tx.confirmations && tx.confirmations >= minConf`
(for the `> 0` checks, `minConf = 1`): the transaction must exist, its
`confirmations` field must be present and nonzero, and reach `minConf`. -/
def txHasConfirmations (tx : Option Tx) (minConf : Nat) : Bool :=
  match tx with
  | some t =>
    match t.confirmations with
    | some c => decide (0 < c) && decide (minConf ≤ c)
    | none => false
  | none => false

/-- Environment of one Liquality handler tick. -/
structure LiqEnv where
  /-- `getTransactionByHash(swap.fromFundHash)` on the `from` chain. -/
  fundTxLookup : Except JsErr (Option Tx) := .ok none
  /-- `getTransactionByHash(swap.toFundHash)` on the `to` chain. -/
  toFundTxLookup : Except JsErr (Option Tx) := .ok none
  /-- `getTransactionByHash(swap.toClaimHash)` on the `to` chain. -/
  claimTxLookup : Except JsErr (Option Tx) := .ok none
  /-- `getTransactionByHash(swap.refundHash)` on the `from` chain. -/
  refundTxLookup : Except JsErr (Option Tx) := .ok none
  /-- `toClient.swap.findInitiateSwapTransaction(...)`. -/
  findInitiateResult : Except JsErr (Option Tx) := .ok none
  /-- `toClient.swap.verifyInitiateSwapTransaction(...)` (truthiness). -/
  verifyInitiate : Bool := false
  /-- `toClient.swap.findFundSwapTransaction(...)` (ERC20 funding tx). -/
  findFundResult : Option Tx := none
  /-- `chains[cryptoassets[swap.to].chain].safeConfirmations`. -/
  safeConfirmations : Nat := 1
  /-- Outcome of `canRefund` = `hasChainTimePassed(swap.swapExpiration)`. -/
  canRefund : Bool := false
  /-- Outcome of `hasSwapExpired` = `hasChainTimePassed(swap.nodeSwapExpiration)`. -/
  swapExpired : Bool := false
  /-- Outcome of `hasQuoteExpired(swap)` = `timestamp() >= swap.expiresAt`. -/
  quoteExpired : Bool := false
  /-- `isERC20(swap.from)`. -/
  fromIsERC20 : Bool := false
  /-- `fromClient.swap.fundSwap(...)` (may return null: `Option`). -/
  fundSwapResult : Except JsErr (Option Tx) := .ok none
  /-- `toClient.swap.claimSwap(...)`. -/
  claimSwapResult : Except JsErr Tx := .ok {}
  /-- `fromClient.swap.refundSwap(...)`. -/
  refundSwapResult : Except JsErr Tx := .ok {}
  /-- `Date.now()`. -/
  now : Nat := 0

/-- `handleExpirations`: `GET_REFUND` if `canRefund`, else `WAITING_FOR_REFUND`
if `hasSwapExpired`, else `undefined`. -/
def handleExpirations (env : LiqEnv) : Option SwapUpdate :=
  if env.canRefund then some { status := some "GET_REFUND" }
  else if env.swapExpired then some { status := some "WAITING_FOR_REFUND" }
  else none

/-- `reportInitiation`: on an expired quote moves to `WAITING_FOR_REFUND`,
otherwise posts the order update and moves to `INITIATION_REPORTED`. -/
def reportInitiation (env : LiqEnv) : Except JsErr (Option SwapUpdate) × List Act :=
  if env.quoteExpired then (.ok (some { status := some "WAITING_FOR_REFUND" }), [])
  else (.ok (some { status := some "INITIATION_REPORTED" }), [.httpGet])

/-- `findCounterPartyInitiation`: looks for the counterparty HTLC, verifies
it and (for ERC20) checks the separate funding transaction's confirmations
against `safeConfirmations`; a missing funding transaction counts as
confirmed.  Errors named `BlockNotFoundError`, `PendingTxError` or
`TxNotFoundError` are swallowed; any other error is re-thrown.  On every path
that did not conclude, `handleExpirations` runs. -/
def findCounterPartyInitiation (env : LiqEnv) :
    Except JsErr (Option SwapUpdate) × List Act :=
  match env.findInitiateResult with
  | .ok (some tx) =>
    let fundingConfirmed :=
      match env.findFundResult with
      | some ft =>
        match ft.confirmations with
        | some c => decide (0 < c) && decide (env.safeConfirmations ≤ c)
        | none => false
      | none => true
    if env.verifyInitiate && fundingConfirmed then
      (.ok (some { toFundHash := some tx.hash,
                   status := some "CONFIRM_COUNTER_PARTY_INITIATION" }),
       [.findInitTx])
    else
      (.ok (handleExpirations env), [.findInitTx, .expirationCheck])
  | .ok none =>
      (.ok (handleExpirations env), [.findInitTx, .expirationCheck])
  | .error e =>
    if e.name = "BlockNotFoundError" ∨ e.name = "PendingTxError" ∨
        e.name = "TxNotFoundError" then
      (.ok (handleExpirations env), [.findInitTx, .expirationCheck])
    else
      (.error e, [.findInitTx])

/-- `confirmInitiation`: first tries the jump-ahead via
`findCounterPartyInitiation`; if that produced nothing, checks our own
funding transaction's confirmations, swallowing only `TxNotFoundError`. -/
def confirmInitiation (env : LiqEnv) : Except JsErr (Option SwapUpdate) × List Act :=
  match findCounterPartyInitiation env with
  | (.error e, acts) => (.error e, acts)
  | (.ok (some u), acts) => (.ok (some u), acts)
  | (.ok none, acts) =>
    match env.fundTxLookup with
    | .ok tx =>
      if txHasConfirmations tx 1 then
        (.ok (some { status := some "INITIATION_CONFIRMED" }), acts ++ [.getTx])
      else
        (.ok none, acts ++ [.getTx])
    | .error e =>
      if e.name = "TxNotFoundError" then (.ok none, acts ++ [.getTx])
      else (.error e, acts ++ [.getTx])

/-- `fundSwap`: `QUOTE_EXPIRED` on an expired quote; native assets skip
funding (`FUNDED`); ERC20 assets broadcast the funding call and throw if the
returned transaction is null. -/
def fundSwap (env : LiqEnv) : Except JsErr (Option SwapUpdate) × List Act :=
  if env.quoteExpired then (.ok (some { status := some "QUOTE_EXPIRED" }), [])
  else if !env.fromIsERC20 then (.ok (some { status := some "FUNDED" }), [])
  else
    match env.fundSwapResult with
    | .ok (some tx) =>
        (.ok (some { fundTxHash := some tx.hash, status := some "FUNDED" }), [.fundTx])
    | .ok none => (.error { name := "Error" }, [.fundTx])
    | .error e => (.error e, [.fundTx])

/-- `confirmCounterPartyInitiation`: no try/catch — a lookup error
propagates; a transaction with `safeConfirmations` confirmations yields
`READY_TO_CLAIM`, otherwise `handleExpirations` runs. -/
def confirmCounterPartyInitiation (env : LiqEnv) :
    Except JsErr (Option SwapUpdate) × List Act :=
  match env.toFundTxLookup with
  | .error e => (.error e, [.getTx])
  | .ok tx =>
    if txHasConfirmations tx env.safeConfirmations then
      (.ok (some { status := some "READY_TO_CLAIM" }), [.getTx])
    else
      (.ok (handleExpirations env), [.getTx, .expirationCheck])

/-- `claimSwap`: runs `handleExpirations` first; if no expiration applies it
broadcasts the claim and moves to `WAITING_FOR_CLAIM_CONFIRMATIONS`. -/
def claimSwap (env : LiqEnv) : Except JsErr (Option SwapUpdate) × List Act :=
  match handleExpirations env with
  | some u => (.ok (some u), [.expirationCheck])
  | none =>
    match env.claimSwapResult with
    | .ok tx =>
      (.ok (some { toClaimHash := some tx.hash,
                   status := some "WAITING_FOR_CLAIM_CONFIRMATIONS" }),
       [.expirationCheck, .claimTx])
    | .error e => (.error e, [.expirationCheck, .claimTx])

/-- `waitForClaimConfirmations`: a confirmed claim ends the swap
(`endTime`, `SUCCESS`); otherwise — transaction not found *or found but
unconfirmed* — `handleExpirations` runs; only `TxNotFoundError` is
swallowed. -/
def waitForClaimConfirmations (env : LiqEnv) :
    Except JsErr (Option SwapUpdate) × List Act :=
  match env.claimTxLookup with
  | .ok tx =>
    if txHasConfirmations tx 1 then
      (.ok (some { endTime := some env.now, status := some "SUCCESS" }),
       [.getTx, .updateBalances])
    else
      (.ok (handleExpirations env), [.getTx, .expirationCheck])
  | .error e =>
    if e.name = "TxNotFoundError" then
      (.ok (handleExpirations env), [.getTx, .expirationCheck])
    else
      (.error e, [.getTx])

/-- `waitForRefund`: moves to `GET_REFUND` once `canRefund` holds. -/
def waitForRefund (env : LiqEnv) : Except JsErr (Option SwapUpdate) × List Act :=
  if env.canRefund then (.ok (some { status := some "GET_REFUND" }), [])
  else (.ok none, [])

/-- `refundSwap`: broadcasts the refund, moves to
`WAITING_FOR_REFUND_CONFIRMATIONS`. -/
def refundSwap (env : LiqEnv) : Except JsErr (Option SwapUpdate) × List Act :=
  match env.refundSwapResult with
  | .ok tx =>
    (.ok (some { refundHash := some tx.hash,
                 status := some "WAITING_FOR_REFUND_CONFIRMATIONS" }), [.refundTx])
  | .error e => (.error e, [.refundTx])

/-- `waitForRefundConfirmations`: a confirmed refund ends the swap
(`endTime`, `REFUNDED`); `TxNotFoundError` is swallowed, other errors
re-thrown; no expiration check here. -/
def waitForRefundConfirmations (env : LiqEnv) :
    Except JsErr (Option SwapUpdate) × List Act :=
  match env.refundTxLookup with
  | .ok tx =>
    if txHasConfirmations tx 1 then
      (.ok (some { endTime := some env.now, status := some "REFUNDED" }), [.getTx])
    else
      (.ok none, [.getTx])
  | .error e =>
    if e.name = "TxNotFoundError" then (.ok none, [.getTx])
    else (.error e, [.getTx])

/-! ### Liquality `newSwap` and `hasChainTimePassed` -/

/-- The fields of the freshly fetched quote (`_getQuote`, i.e. the agent's
`POST /api/swap/order`) that `newSwap` inspects.  `expiresAt` is the field of
the merged quote `{..._quote, ...lockedQuote}` read by `hasQuoteExpired`. -/
structure LockedQuote where
  toAmount : ℚ
  expiresAt : Nat
deriving DecidableEq

/-- Environment of one `LiqualitySwapProvider.newSwap` call. -/
structure LiqNewSwapEnv where
  /-- Result of `_getQuote` (it rethrows the agent's error message). -/
  orderResult : Except String LockedQuote
  /-- `timestamp()` (`Date.now()`). -/
  now : Nat := 0
  /-- `fromClient.swap.generateSecret(messageHex)`. -/
  secret : String := ""
  /-- `fromClient.swap.initiateSwap(...)`. -/
  initiateResult : Except String Tx := .ok {}

/-- Successful return value of `newSwap`. -/
structure LiqNewSwapOk where
  status : String
  secret : String
  secretHash : String
  fromFundHash : String
deriving DecidableEq

/-- `LiqualitySwapProvider.newSwap`: fetches a fresh quote; throws when the
fresh `toAmount` is below `0.995` times the original `toAmount`
(`new BN(lockedQuote.toAmount).lt(new BN(_quote.toAmount).times(0.995))`);
throws when the quote has expired (`timestamp() >= expiresAt`); otherwise
resolves both swap addresses, generates the secret, hashes it with `sha256`
and funds the HTLC via `initiateSwap`, returning status `INITIATED`. -/
def liqNewSwap (sha256 : String → String) (origToAmount : ℚ)
    (env : LiqNewSwapEnv) : Except String LiqNewSwapOk × List Act :=
  match env.orderResult with
  | .error msg => (.error msg, [.httpGet])
  | .ok lockedQuote =>
    if lockedQuote.toAmount < origToAmount * (995/1000) then
      (.error "The quote slippage is too high (> 0.5%). Try again.", [.httpGet])
    else if lockedQuote.expiresAt ≤ env.now then
      (.error "The quote is expired.", [.httpGet])
    else
      match env.initiateResult with
      | .error msg =>
        (.error msg, [.httpGet, .getAddr, .getAddr, .genSecret, .initiateSwap])
      | .ok tx =>
        (.ok { status := "INITIATED", secret := env.secret,
               secretHash := sha256 env.secret, fromFundHash := tx.hash },
         [.httpGet, .getAddr, .getAddr, .genSecret, .initiateSwap])

/-- One attempt of the `try` body inside `hasChainTimePassed`
(`getBlockHeight` followed by `getBlockByNumber`): either throws, or yields
the latest block's timestamp. -/
def ChainTimeOracle := ℕ → Except JsErr ℤ

/-- The retry loop of `hasChainTimePassed` with `remaining` attempts left
(`remaining = maxTries - tries`): on success returns
`latestBlock.timestamp > timestamp`; on failure waits 2000 ms and retries,
except that exhausting the attempts re-throws the last error.  The `0` case
is the loop's unreachable fall-through (`maxTries` is positive). -/
def hasChainTimePassedAux (oracle : ChainTimeOracle) (ts : ℤ) (tries : ℕ) :
    ℕ → Except JsErr Bool × List Act
  | 0 => (.ok false, [])
  | remaining + 1 =>
    match oracle tries with
    | .ok blockTs => (.ok (decide (ts < blockTs)), [.chainRead tries])
    | .error e =>
      if remaining = 0 then (.error e, [.chainRead tries])
      else
        let rest := hasChainTimePassedAux oracle ts (tries + 1) remaining
        (rest.1, .chainRead tries :: .pause 2000 :: rest.2)

/-- `hasChainTimePassed` with its `maxTries = 3`. -/
def hasChainTimePassed (oracle : ChainTimeOracle) (ts : ℤ) :
    Except JsErr Bool × List Act :=
  hasChainTimePassedAux oracle ts 0 3

/-! ### Thorchain handlers (`ThorchainSwapProvider.ts`) -/

/-- Quote fields consumed by `ThorchainSwapProvider.newSwap` / `makeMemo`. -/
structure ThorQuote where
  fromIsERC20 : Bool
  fee : ℚ
  slippage : ℚ
  toAmount : ℚ
  receiveFee : ℚ
deriving DecidableEq

/-- The keys `approveTokens` / `sendSwap` can return; neither returns `id`,
`fee` or `slippage`. -/
structure ThorUpdates where
  status : String
  approveTxHash : Option String := none
  fromFundHash : Option String := none
deriving DecidableEq

/-- The swap record produced by `ThorchainSwapProvider.newSwap`:
`{ id: uuidv4(), fee: quote.fee, slippage: 50, ...updates }`. -/
structure ThorNewSwapResult where
  id : String
  fee : ℚ
  slippage : ℚ
  status : String
  approveTxHash : Option String := none
  fromFundHash : Option String := none
deriving DecidableEq

/-- What a Thorchain observed transaction exposes to `waitForReceive`. -/
structure ThorObservedTx where
  memo : String := ""
  outHash : Option String := none   -- `observed_tx?.out_hashes?.[0]`
deriving DecidableEq

/-- Environment of the Thorchain handlers. -/
structure ThorEnv where
  /-- `getTransactionByHash(swap.approveTxHash)`. -/
  approveTxLookup : Except JsErr (Option Tx) := .ok none
  /-- `getTransactionByHash(swap.fromFundHash)`. -/
  sendTxLookup : Except JsErr (Option Tx) := .ok none
  /-- `_getTransaction(swap.fromFundHash)` (thornode; errors become null). -/
  fundObserved : Option ThorObservedTx := none
  /-- `_getTransaction(receiveHash)` (thornode; errors become null). -/
  receiveObserved : Option ThorObservedTx := none
  /-- `getTransactionByHash(receiveHash)` on the destination chain. -/
  receiveTxLookup : Except JsErr (Option Tx) := .ok none
  /-- `erc20.allowance(fromAddress, routerAddress).gte(inputAmount)`. -/
  allowanceSufficient : Bool := false
  /-- `client.chain.sendTransaction` for the ERC20 approval. -/
  approveSendResult : Tx := {}
  /-- `client.chain.sendTransaction` for the deposit (BTC or ETH router). -/
  depositSendResult : Tx := {}
  /-- `uuidv4()`. -/
  uuid : String := ""
  /-- `Date.now()`. -/
  now : Nat := 0

/-- `approveTokens`: if the router's allowance already covers the input the
status jumps to `APPROVE_CONFIRMED` with no transaction; otherwise the
approval call is broadcast and the status is
`WAITING_FOR_APPROVE_CONFIRMATIONS`. -/
def thorApproveTokens (env : ThorEnv) : ThorUpdates × List Act :=
  if env.allowanceSufficient then
    ({ status := "APPROVE_CONFIRMED" }, [.allowanceRead])
  else
    ({ status := "WAITING_FOR_APPROVE_CONFIRMATIONS",
       approveTxHash := some env.approveSendResult.hash },
     [.allowanceRead, .sendTransaction])

/-- `sendSwap`: builds the memo (`makeMemo`) and broadcasts the deposit
(`sendBitcoinSwap` / `sendEthereumSwap`), yielding
`WAITING_FOR_SEND_CONFIRMATIONS`. -/
def thorSendSwap (env : ThorEnv) : ThorUpdates × List Act :=
  ({ status := "WAITING_FOR_SEND_CONFIRMATIONS",
     fromFundHash := some env.depositSendResult.hash },
   [.getAddr, .sendTransaction])

/-- `ThorchainSwapProvider.newSwap`: routes through `approveTokens` for ERC20
sources, `sendSwap` otherwise, and spreads the result over
`{ id: uuidv4(), fee: quote.fee, slippage: 50 }` — the `slippage` stored on
the swap record is the constant `50`, not the quote's fraction. -/
def thorNewSwap (quote : ThorQuote) (env : ThorEnv) :
    ThorNewSwapResult × List Act :=
  let stepResult := if quote.fromIsERC20 then thorApproveTokens env else thorSendSwap env
  ({ id := env.uuid, fee := quote.fee, slippage := 50,
     status := stepResult.1.status,
     approveTxHash := stepResult.1.approveTxHash,
     fromFundHash := stepResult.1.fromFundHash },
   stepResult.2)

/-- `waitForApproveConfirmations`: a confirmed approval yields
`{ endTime: Date.now(), status: APPROVE_CONFIRMED }`; `TxNotFoundError` is
swallowed, other errors re-thrown. -/
def thorWaitForApproveConfirmations (env : ThorEnv) :
    Except JsErr (Option SwapUpdate) × List Act :=
  match env.approveTxLookup with
  | .ok tx =>
    if txHasConfirmations tx 1 then
      (.ok (some { endTime := some env.now, status := some "APPROVE_CONFIRMED" }),
       [.getTx])
    else (.ok none, [.getTx])
  | .error e =>
    if e.name = "TxNotFoundError" then (.ok none, [.getTx])
    else (.error e, [.getTx])

/-- `waitForSendConfirmations`: a confirmed deposit yields
`{ endTime: Date.now(), status: WAITING_FOR_RECEIVE }`; `TxNotFoundError` is
swallowed, other errors re-thrown. -/
def thorWaitForSendConfirmations (env : ThorEnv) :
    Except JsErr (Option SwapUpdate) × List Act :=
  match env.sendTxLookup with
  | .ok tx =>
    if txHasConfirmations tx 1 then
      (.ok (some { endTime := some env.now, status := some "WAITING_FOR_RECEIVE" }),
       [.getTx])
    else (.ok none, [.getTx])
  | .error e =>
    if e.name = "TxNotFoundError" then (.ok none, [.getTx])
    else (.error e, [.getTx])

/-- `OUT_MEMO_TO_STATUS`. -/
def outMemoToStatus (memoAction : String) : Option String :=
  if memoAction = "OUT" then some "SUCCESS"
  else if memoAction = "REFUND" then some "REFUNDED"
  else none

/-- `waitForReceive`: follows the observed deposit to its outbound hash,
classifies the outbound memo prefix (`OUT` → `SUCCESS`, `REFUND` →
`REFUNDED`, anything else throws), and once the outbound transaction is
confirmed on the destination chain returns the terminal update with
`endTime`; an unconfirmed-but-present outbound transaction returns only the
receive hashes.  `TxNotFoundError` is swallowed, other errors re-thrown. -/
def thorWaitForReceive (env : ThorEnv) : Except JsErr (Option SwapUpdate) × List Act :=
  match env.fundObserved with
  | none => (.ok none, [.httpGet])
  | some observed =>
    match observed.outHash with
    | none => (.ok none, [.httpGet])
    | some _receiveHash =>   -- argument of the two receive-side lookups below
      match env.receiveObserved with
      | none => (.ok none, [.httpGet, .httpGet])
      | some receiveObs =>
        let memoAction := ((receiveObs.memo.splitOn ":").headD "")
        match outMemoToStatus memoAction with
        | none => (.error { name := "Error" }, [.httpGet, .httpGet])
        | some status =>
          match env.receiveTxLookup with
          | .ok (some rtx) =>
            if txHasConfirmations (some rtx) 1 then
              (.ok (some { receiveTxHash := some rtx.hash,
                           endTime := some env.now, status := some status }),
               [.httpGet, .httpGet, .getTx, .updateBalances])
            else
              (.ok (some { receiveTxHash := some rtx.hash }),
               [.httpGet, .httpGet, .getTx])
          | .ok none =>
            -- `receiveTx.hash` on a null transaction throws a TypeError,
            -- which the catch re-throws (its name is not TxNotFoundError)
            (.error { name := "TypeError" }, [.httpGet, .httpGet, .getTx])
          | .error e =>
            if e.name = "TxNotFoundError" then (.ok none, [.httpGet, .httpGet, .getTx])
            else (.error e, [.httpGet, .httpGet, .getTx])

/-- "No new chain data" for a transaction lookup: the transaction was not
found (null result or a `TxNotFoundError`), or it was found with zero
confirmations. -/
def noNewData : Except JsErr (Option Tx) → Bool
  | .ok none => true
  | .ok (some t) => t.confirmations.getD 0 == 0
  | .error e => e.name == "TxNotFoundError"

/-!  ## Theorems -/

/-- Claim C3: `attemptToLockAsset(network, walletId, asset)` never blocks (it
is a total function of the lock table) and succeeds exactly when the key
(network, walletId and the asset's chain joined with `-`) was unlocked, in
which case it marks the key locked (after either outcome the key is locked);
`unlockAsset(key)` marks the key unlocked and always emits the single event
`unlock:<key>`, whatever the previous lock state was. -/
theorem assetLock_tryAcquire_release_contract (chainOf : String → String)
    (tbl : LockTable) (network walletId asset key : String) :
    (attemptToLockAsset chainOf tbl network walletId asset).1.key =
      network ++ "-" ++ walletId ++ "-" ++ chainOf asset ∧
    (attemptToLockAsset chainOf tbl network walletId asset).1.success =
      !tbl (network ++ "-" ++ walletId ++ "-" ++ chainOf asset) ∧
    (attemptToLockAsset chainOf tbl network walletId asset).2
      (network ++ "-" ++ walletId ++ "-" ++ chainOf asset) = true ∧
    (unlockAsset tbl key).1 key = false ∧
    (unlockAsset tbl key).2 = ["unlock:" ++ key] := by
  unfold attemptToLockAsset unlockAsset
  by_cases h : tbl (network ++ "-" ++ walletId ++ "-" ++ chainOf asset) = true
  · simp [h]
  · simp [h]

/-- Claim C1: in `LiqualitySwapProvider.newSwap`, when the freshly fetched
quote's `toAmount` is below `0.995` times the original quote's `toAmount`,
the call throws the slippage error after nothing but the quote fetch itself:
no swap address is resolved, no secret generated and, in particular,
`initiateSwap` is never called, so no funding transaction is initiated. -/
theorem liq_newSwap_slippage_guard (sha256 : String → String)
    (origToAmount : ℚ) (env : LiqNewSwapEnv) (lockedQuote : LockedQuote)
    (horder : env.orderResult = .ok lockedQuote)
    (hslip : lockedQuote.toAmount < origToAmount * (995/1000)) :
    (liqNewSwap sha256 origToAmount env).1 =
      .error "The quote slippage is too high (> 0.5%). Try again." ∧
    (liqNewSwap sha256 origToAmount env).2 = [.httpGet] ∧
    Act.initiateSwap ∉ (liqNewSwap sha256 origToAmount env).2 := by
  simp [liqNewSwap, horder, hslip]

/-- Witness for C1: original `toAmount = 1000`, refreshed `toAmount = 900`
(worse than `995 = 1000 × 0.995`): `newSwap` errors with only the quote
fetch in its trace. -/
theorem liq_newSwap_slippage_guard_witness :
    (liqNewSwap id 1000
        { orderResult := .ok { toAmount := 900, expiresAt := 10 } }).1 =
      .error "The quote slippage is too high (> 0.5%). Try again." ∧
    (liqNewSwap id 1000
        { orderResult := .ok { toAmount := 900, expiresAt := 10 } }).2 = [.httpGet] ∧
    Act.initiateSwap ∉ (liqNewSwap id 1000
        { orderResult := .ok { toAmount := 900, expiresAt := 10 } }).2 :=
  liq_newSwap_slippage_guard id 1000 _ _ rfl (by norm_num)

/-- Claim C2 counterexample: the limit computed by `makeMemo` is **not** the
floor of `(toAmount - receiveFee) × (1 - slippage)`.  `.dp(0)` uses the
BigNumber default `ROUND_HALF_UP`: for `toAmount = 1000`, `receiveFee = 50`,
`slippage = 0.0205` the product is `930.525`, the code's limit is `931`
while the floor is `930`. -/
theorem makeMemo_limit_not_floor :
    makeMemoLimit 1000 50 (205/10000) 8 = 931 ∧
    (⌊((1000 - 50) * (1 - 205/10000) : ℚ)⌋ : ℤ) = 930 := by
  constructor
  · norm_num [makeMemoLimit, convertBaseAmountDecimal, makeMemoMinimumOutput,
      bnRoundHalfUp]
  · norm_num

/-- Claim C2 (amended): the minimum-output limit embedded in the deposit memo
by `makeMemo` equals `(toAmount - receiveFee) × (1 - slippage)` rounded to
the **nearest** integer, ties away from zero (BigNumber `ROUND_HALF_UP`, the
default of `.dp(0)`) — not rounded down — then converted to 8-decimal base
units (the identity for an 8-decimal destination asset); for
`toAmount = 1000`, `receiveFee = 50`, `slippage = 0.02` the product is
exactly `931`, so the computed limit is `931` as the spec instance states. -/
theorem makeMemo_limit_half_up (toAmount receiveFee slippage : ℚ)
    (hnn : 0 ≤ (toAmount - receiveFee) * (1 - slippage)) :
    makeMemoLimit toAmount receiveFee slippage 8 =
      ((⌊(toAmount - receiveFee) * (1 - slippage) + 1/2⌋ : ℤ) : ℚ) ∧
    makeMemoMinimumOutput 1000 50 (2/100) = 931 ∧
    makeMemoLimit 1000 50 (2/100) 8 = 931 := by
  refine ⟨?_, ?_, ?_⟩
  · simp [makeMemoLimit, convertBaseAmountDecimal, makeMemoMinimumOutput,
      bnRoundHalfUp, hnn]
  · norm_num [makeMemoMinimumOutput, bnRoundHalfUp]
  · norm_num [makeMemoLimit, convertBaseAmountDecimal, makeMemoMinimumOutput,
      bnRoundHalfUp]

/-- Witness for the amended C2 at the spec's own instance
(`1000`, `50`, `0.02`, an 8-decimal destination asset). -/
theorem makeMemo_limit_half_up_witness :
    makeMemoLimit 1000 50 (2/100) 8 =
      ((⌊((1000 - 50) * (1 - 2/100) : ℚ) + 1/2⌋ : ℤ) : ℚ) ∧
    makeMemoMinimumOutput 1000 50 (2/100) = 931 ∧
    makeMemoLimit 1000 50 (2/100) 8 = 931 :=
  makeMemo_limit_half_up 1000 50 (2/100) (by norm_num)

/-- Claim C10: the swap record returned by `ThorchainSwapProvider.newSwap`
always carries `slippage = 50` (the constant in the literal, overwriting the
slippage fraction `getQuote` computed), the freshly generated uuid as `id`,
and the quote's `fee`; `makeMemo`, which reads the stored record's
`slippage` field, therefore computes its minimum output with the coefficient
`1 - 50 = -49` rather than `1 - quote.slippage`. -/
theorem thor_newSwap_slippage_constant (quote : ThorQuote) (env : ThorEnv) :
    (thorNewSwap quote env).1.slippage = 50 ∧
    (thorNewSwap quote env).1.fee = quote.fee ∧
    (thorNewSwap quote env).1.id = env.uuid ∧
    makeMemoMinimumOutput quote.toAmount quote.receiveFee
        (thorNewSwap quote env).1.slippage =
      bnRoundHalfUp ((quote.toAmount - quote.receiveFee) * (1 - 50)) := by
  refine ⟨rfl, rfl, rfl, ?_⟩
  rfl

/-- `handleExpirations` never sets `endTime`: both of its updates carry only
a `status`. -/
theorem handleExpirations_no_endTime (env : LiqEnv) (u : SwapUpdate)
    (h : handleExpirations env = some u) : u.endTime = none := by
  unfold handleExpirations at h
  split_ifs at h <;> cases h <;> rfl

/-- Claim C4 (amended): Liquality's `waitForClaimConfirmations` and
`waitForRefundConfirmations` and Thorchain's `waitForReceive` pair `endTime`
only with a terminal status (`SUCCESS` / `REFUNDED`); but Thorchain's
`waitForApproveConfirmations` and `waitForSendConfirmations` pair `endTime`
with the non-terminal statuses `APPROVE_CONFIRMED` and
`WAITING_FOR_RECEIVE` respectively, so the original claim fails for them. -/
theorem endTime_terminal_status_pairing (env : LiqEnv) (tenv : ThorEnv)
    (u : SwapUpdate) :
    ((waitForClaimConfirmations env).1 = .ok (some u) →
      u.endTime.isSome = true → u.status = some "SUCCESS") ∧
    ((waitForRefundConfirmations env).1 = .ok (some u) →
      u.endTime.isSome = true → u.status = some "REFUNDED") ∧
    ((thorWaitForReceive tenv).1 = .ok (some u) →
      u.endTime.isSome = true →
      u.status = some "SUCCESS" ∨ u.status = some "REFUNDED") ∧
    ((thorWaitForApproveConfirmations tenv).1 = .ok (some u) →
      u.endTime.isSome = true → u.status = some "APPROVE_CONFIRMED") ∧
    ((thorWaitForSendConfirmations tenv).1 = .ok (some u) →
      u.endTime.isSome = true → u.status = some "WAITING_FOR_RECEIVE") := by
  refine ⟨?_, ?_, ?_, ?_, ?_⟩
  · intro hres hend
    cases hcl : env.claimTxLookup with
    | ok tx =>
      simp only [waitForClaimConfirmations, handleExpirations, hcl] at hres
      split_ifs at hres <;> simp at hres <;> (try subst hres) <;> simp_all
    | error e =>
      simp only [waitForClaimConfirmations, handleExpirations, hcl] at hres
      split_ifs at hres <;> simp at hres <;> (try subst hres) <;> simp_all
  · intro hres hend
    cases hcl : env.refundTxLookup with
    | ok tx =>
      simp only [waitForRefundConfirmations, hcl] at hres
      split_ifs at hres <;> simp at hres <;> (try subst hres) <;> simp_all
    | error e =>
      simp only [waitForRefundConfirmations, hcl] at hres
      split_ifs at hres <;> simp at hres <;> (try subst hres) <;> simp_all
  · intro hres hend
    cases hfo : tenv.fundObserved with
    | none => simp_all [thorWaitForReceive]
    | some observed =>
      cases hoh : observed.outHash with
      | none => simp_all [thorWaitForReceive]
      | some rh =>
        cases hro : tenv.receiveObserved with
        | none => simp_all [thorWaitForReceive]
        | some robs =>
          cases hout : outMemoToStatus ((robs.memo.splitOn ":").headD "") with
          | none =>
            simp only [thorWaitForReceive, hfo, hoh, hro, hout] at hres
            simp at hres
          | some status =>
            have hstat : status = "SUCCESS" ∨ status = "REFUNDED" := by
              revert hout
              unfold outMemoToStatus
              split_ifs <;> intro h <;> simp_all
            cases hrl : tenv.receiveTxLookup with
            | ok rtx =>
              cases rtx with
              | none =>
                simp only [thorWaitForReceive, hfo, hoh, hro, hout, hrl] at hres
                simp at hres
              | some t =>
                simp only [thorWaitForReceive, hfo, hoh, hro, hout, hrl] at hres
                split_ifs at hres <;> simp at hres <;> (try subst hres) <;>
                  (try rcases hstat with h | h) <;> simp_all
            | error e =>
              simp only [thorWaitForReceive, hfo, hoh, hro, hout, hrl] at hres
              split_ifs at hres <;> simp at hres <;> (try subst hres) <;>
                (try rcases hstat with h | h) <;> simp_all
  · intro hres hend
    cases hal : tenv.approveTxLookup with
    | ok tx =>
      simp only [thorWaitForApproveConfirmations, hal] at hres
      split_ifs at hres <;> simp at hres <;> (try subst hres) <;> simp_all
    | error e =>
      simp only [thorWaitForApproveConfirmations, hal] at hres
      split_ifs at hres <;> simp at hres <;> (try subst hres) <;> simp_all
  · intro hres hend
    cases hsl : tenv.sendTxLookup with
    | ok tx =>
      simp only [thorWaitForSendConfirmations, hsl] at hres
      split_ifs at hres <;> simp at hres <;> (try subst hres) <;> simp_all
    | error e =>
      simp only [thorWaitForSendConfirmations, hsl] at hres
      split_ifs at hres <;> simp at hres <;> (try subst hres) <;> simp_all

/-- Witness for the amended C4: a claim transaction with 2 confirmations
makes `waitForClaimConfirmations` return the `SUCCESS` update, whose
`endTime` is set. -/
theorem endTime_terminal_status_pairing_witness :
    SwapUpdate.status { endTime := some 7, status := some "SUCCESS" } = some "SUCCESS" :=
  (endTime_terminal_status_pairing
    { claimTxLookup := .ok (some { hash := "c", confirmations := some 2 }), now := 7 }
    {} { endTime := some 7, status := some "SUCCESS" }).1 rfl rfl

/-- Claim C4 counterexample: a confirmed ERC20 approval makes Thorchain's
`waitForApproveConfirmations` return an update pairing `endTime` with
`APPROVE_CONFIRMED`, which is not terminal — the dispatch sends
`APPROVE_CONFIRMED` on to `sendSwap` — and likewise `waitForSendConfirmations`
pairs `endTime` with the non-terminal `WAITING_FOR_RECEIVE`. -/
theorem thor_endTime_with_non_terminal_status :
    (thorWaitForApproveConfirmations
        { approveTxLookup := .ok (some { hash := "a", confirmations := some 1 }),
          now := 1234 }).1 =
      .ok (some { endTime := some 1234, status := some "APPROVE_CONFIRMED" }) ∧
    "APPROVE_CONFIRMED" ∉ thorchainTerminal ∧
    ("APPROVE_CONFIRMED", "WAITING_FOR_SEND_CONFIRMATIONS") ∈ thorchainEdges ∧
    (thorWaitForSendConfirmations
        { sendTxLookup := .ok (some { hash := "s", confirmations := some 1 }),
          now := 1234 }).1 =
      .ok (some { endTime := some 1234, status := some "WAITING_FOR_RECEIVE" }) ∧
    "WAITING_FOR_RECEIVE" ∉ thorchainTerminal := by
  refine ⟨rfl, by decide, by decide, rfl, by decide⟩

/-- Claim C5 evidence (code bug): with the claim transaction *found* but
unconfirmed (0 confirmations), `waitForClaimConfirmations` still executes
`handleExpirations` — contradicting the code's own comment "Expiration check
should only happen if tx not found" — and `confirmCounterPartyInitiation`
likewise runs it for a transaction found with fewer than
`safeConfirmations` confirmations. -/
theorem expiration_check_despite_found_transaction :
    waitForClaimConfirmations
        { claimTxLookup := .ok (some { hash := "c", confirmations := some 0 }),
          canRefund := true } =
      (.ok (some { status := some "GET_REFUND" }), [.getTx, .expirationCheck]) ∧
    confirmCounterPartyInitiation
        { toFundTxLookup := .ok (some { hash := "t", confirmations := some 1 }),
          safeConfirmations := 3, swapExpired := true } =
      (.ok (some { status := some "WAITING_FOR_REFUND" }), [.getTx, .expirationCheck]) :=
  ⟨rfl, rfl⟩

/-- Claim C6 counterexample: the terminal statuses carry step index `3`,
while `_totalSteps()` declares `4` — the final step index is
`_totalSteps() - 1`, not `_totalSteps()`, in both providers. -/
theorem final_step_is_not_totalSteps :
    stepOf liqualityStatusSteps "SUCCESS" = 3 ∧
    liqualityTotalSteps = 4 ∧
    stepOf liqualityStatusSteps "SUCCESS" ≠ liqualityTotalSteps ∧
    stepOf thorchainStatusSteps "SUCCESS" ≠ thorchainTotalSteps := by
  refine ⟨by decide, rfl, by decide, by decide⟩

/-- Claim C6 (amended): along every transition edge realised by each
provider's dispatch the step index is monotonically non-decreasing, and
every terminal status carries the final step index `_totalSteps() - 1`
(`3` of `4` declared steps, the indices being 0-based). -/
theorem steps_monotone_terminal_final :
    stepsMonotone liqualityStatusSteps liqualityEdges = true ∧
    stepsMonotone thorchainStatusSteps thorchainEdges = true ∧
    liqualityTerminal.all
      (fun s => stepOf liqualityStatusSteps s == liqualityTotalSteps - 1) = true ∧
    thorchainTerminal.all
      (fun s => stepOf thorchainStatusSteps s == thorchainTotalSteps - 1) = true := by
  refine ⟨by decide, by decide, by decide, by decide⟩

/-! Soundness of the edge lists: each handler can only write the statuses
its dispatch source is connected to in `liqualityEdges` / `thorchainEdges`. -/

/-- `reportInitiation` (dispatched at `INITIATED`) writes only
`WAITING_FOR_REFUND` or `INITIATION_REPORTED`. -/
theorem reportInitiation_status_range (env : LiqEnv) (u : SwapUpdate)
    (h : (reportInitiation env).1 = .ok (some u)) :
    u.status = some "WAITING_FOR_REFUND" ∨ u.status = some "INITIATION_REPORTED" := by
  unfold reportInitiation at h
  split_ifs at h <;> simp at h <;> (try subst h) <;> simp_all

/-- `findCounterPartyInitiation` (dispatched at `FUNDED`, and probed first by
`confirmInitiation`) writes only `CONFIRM_COUNTER_PARTY_INITIATION`,
`GET_REFUND` or `WAITING_FOR_REFUND`. -/
theorem findCounterPartyInitiation_status_range (env : LiqEnv) (u : SwapUpdate)
    (h : (findCounterPartyInitiation env).1 = .ok (some u)) :
    u.status = some "CONFIRM_COUNTER_PARTY_INITIATION" ∨
    u.status = some "GET_REFUND" ∨ u.status = some "WAITING_FOR_REFUND" := by
  cases hf : env.findInitiateResult with
  | ok tx =>
    cases tx with
    | some t =>
      simp only [findCounterPartyInitiation, handleExpirations, hf] at h
      split_ifs at h <;> simp at h <;> (try subst h) <;> simp_all
    | none =>
      simp only [findCounterPartyInitiation, handleExpirations, hf] at h
      split_ifs at h <;> simp at h <;> (try subst h) <;> simp_all
  | error e =>
    simp only [findCounterPartyInitiation, handleExpirations, hf] at h
    split_ifs at h <;> simp at h <;> (try subst h) <;> simp_all

/-- `confirmInitiation` (dispatched at `INITIATION_REPORTED`) writes only the
statuses of `findCounterPartyInitiation` plus `INITIATION_CONFIRMED`. -/
theorem confirmInitiation_status_range (env : LiqEnv) (u : SwapUpdate)
    (h : (confirmInitiation env).1 = .ok (some u)) :
    u.status = some "CONFIRM_COUNTER_PARTY_INITIATION" ∨
    u.status = some "GET_REFUND" ∨ u.status = some "WAITING_FOR_REFUND" ∨
    u.status = some "INITIATION_CONFIRMED" := by
  unfold confirmInitiation at h
  rcases hcp : findCounterPartyInitiation env with ⟨res, acts⟩
  rw [hcp] at h
  cases res with
  | error e => simp at h
  | ok v =>
    cases v with
    | some w =>
      simp at h
      subst h
      have := findCounterPartyInitiation_status_range env w (by rw [hcp])
      tauto
    | none =>
      cases hfl : env.fundTxLookup with
      | ok tx =>
        rw [hfl] at h
        dsimp only at h
        split_ifs at h <;> simp at h <;> (try subst h) <;> simp_all
      | error e =>
        rw [hfl] at h
        dsimp only at h
        split_ifs at h <;> simp at h <;> (try subst h) <;> simp_all

/-- `fundSwap` (dispatched at `INITIATION_CONFIRMED`) writes only
`QUOTE_EXPIRED` or `FUNDED`. -/
theorem fundSwap_status_range (env : LiqEnv) (u : SwapUpdate)
    (h : (fundSwap env).1 = .ok (some u)) :
    u.status = some "QUOTE_EXPIRED" ∨ u.status = some "FUNDED" := by
  unfold fundSwap at h
  split_ifs at h <;>
    (try cases hfr : env.fundSwapResult with
      | ok tx => ?_
      | error e => ?_) <;>
    (try cases tx) <;> simp_all <;> (try subst h) <;> simp_all

/-- `confirmCounterPartyInitiation` (dispatched at
`CONFIRM_COUNTER_PARTY_INITIATION`) writes only `READY_TO_CLAIM`,
`GET_REFUND` or `WAITING_FOR_REFUND`. -/
theorem confirmCounterPartyInitiation_status_range (env : LiqEnv) (u : SwapUpdate)
    (h : (confirmCounterPartyInitiation env).1 = .ok (some u)) :
    u.status = some "READY_TO_CLAIM" ∨
    u.status = some "GET_REFUND" ∨ u.status = some "WAITING_FOR_REFUND" := by
  cases hl : env.toFundTxLookup with
  | ok tx =>
    simp only [confirmCounterPartyInitiation, handleExpirations, hl] at h
    split_ifs at h <;> simp at h <;> (try subst h) <;> simp_all
  | error e =>
    simp only [confirmCounterPartyInitiation, hl] at h
    simp at h

/-- `claimSwap` (dispatched at `READY_TO_CLAIM`) writes only `GET_REFUND`,
`WAITING_FOR_REFUND` or `WAITING_FOR_CLAIM_CONFIRMATIONS`. -/
theorem claimSwap_status_range (env : LiqEnv) (u : SwapUpdate)
    (h : (claimSwap env).1 = .ok (some u)) :
    u.status = some "GET_REFUND" ∨ u.status = some "WAITING_FOR_REFUND" ∨
    u.status = some "WAITING_FOR_CLAIM_CONFIRMATIONS" := by
  unfold claimSwap handleExpirations at h
  split_ifs at h <;>
    (try cases hcr : env.claimSwapResult with
      | ok tx => ?_
      | error e => ?_) <;> simp_all <;> (try subst h) <;> simp_all

/-- `waitForClaimConfirmations` (dispatched at
`WAITING_FOR_CLAIM_CONFIRMATIONS`) writes only `SUCCESS`, `GET_REFUND` or
`WAITING_FOR_REFUND`. -/
theorem waitForClaimConfirmations_status_range (env : LiqEnv) (u : SwapUpdate)
    (h : (waitForClaimConfirmations env).1 = .ok (some u)) :
    u.status = some "SUCCESS" ∨
    u.status = some "GET_REFUND" ∨ u.status = some "WAITING_FOR_REFUND" := by
  cases hl : env.claimTxLookup with
  | ok tx =>
    simp only [waitForClaimConfirmations, handleExpirations, hl] at h
    split_ifs at h <;> simp at h <;> (try subst h) <;> simp_all
  | error e =>
    simp only [waitForClaimConfirmations, handleExpirations, hl] at h
    split_ifs at h <;> simp at h <;> (try subst h) <;> simp_all

/-- `waitForRefund` (dispatched at `WAITING_FOR_REFUND`) writes only
`GET_REFUND`. -/
theorem waitForRefund_status_range (env : LiqEnv) (u : SwapUpdate)
    (h : (waitForRefund env).1 = .ok (some u)) :
    u.status = some "GET_REFUND" := by
  unfold waitForRefund at h
  split_ifs at h <;> simp at h <;> (try subst h) <;> simp_all

/-- `refundSwap` (dispatched at `GET_REFUND`) writes only
`WAITING_FOR_REFUND_CONFIRMATIONS`. -/
theorem refundSwap_status_range (env : LiqEnv) (u : SwapUpdate)
    (h : (refundSwap env).1 = .ok (some u)) :
    u.status = some "WAITING_FOR_REFUND_CONFIRMATIONS" := by
  cases hr : env.refundSwapResult with
  | ok tx =>
    simp only [refundSwap, hr] at h
    simp at h
    subst h
    rfl
  | error e =>
    simp only [refundSwap, hr] at h
    simp at h

/-- `waitForRefundConfirmations` (dispatched at
`WAITING_FOR_REFUND_CONFIRMATIONS`) writes only `REFUNDED`. -/
theorem waitForRefundConfirmations_status_range (env : LiqEnv) (u : SwapUpdate)
    (h : (waitForRefundConfirmations env).1 = .ok (some u)) :
    u.status = some "REFUNDED" := by
  cases hl : env.refundTxLookup with
  | ok tx =>
    simp only [waitForRefundConfirmations, hl] at h
    split_ifs at h <;> simp at h <;> (try subst h) <;> simp_all
  | error e =>
    simp only [waitForRefundConfirmations, hl] at h
    split_ifs at h <;> simp at h

/-- Thorchain `waitForApproveConfirmations` (dispatched at
`WAITING_FOR_APPROVE_CONFIRMATIONS`) writes only `APPROVE_CONFIRMED`. -/
theorem thorWaitForApprove_status_range (tenv : ThorEnv) (u : SwapUpdate)
    (h : (thorWaitForApproveConfirmations tenv).1 = .ok (some u)) :
    u.status = some "APPROVE_CONFIRMED" := by
  cases hl : tenv.approveTxLookup with
  | ok tx =>
    simp only [thorWaitForApproveConfirmations, hl] at h
    split_ifs at h <;> simp at h <;> (try subst h) <;> simp_all
  | error e =>
    simp only [thorWaitForApproveConfirmations, hl] at h
    split_ifs at h <;> simp at h

/-- Thorchain `waitForSendConfirmations` (dispatched at
`WAITING_FOR_SEND_CONFIRMATIONS`) writes only `WAITING_FOR_RECEIVE`. -/
theorem thorWaitForSend_status_range (tenv : ThorEnv) (u : SwapUpdate)
    (h : (thorWaitForSendConfirmations tenv).1 = .ok (some u)) :
    u.status = some "WAITING_FOR_RECEIVE" := by
  cases hl : tenv.sendTxLookup with
  | ok tx =>
    simp only [thorWaitForSendConfirmations, hl] at h
    split_ifs at h <;> simp at h <;> (try subst h) <;> simp_all
  | error e =>
    simp only [thorWaitForSendConfirmations, hl] at h
    split_ifs at h <;> simp at h

/-- Thorchain `waitForReceive` (dispatched at `WAITING_FOR_RECEIVE`) either
leaves the status unchanged or writes a terminal `SUCCESS` / `REFUNDED`. -/
theorem thorWaitForReceive_status_range (tenv : ThorEnv) (u : SwapUpdate)
    (h : (thorWaitForReceive tenv).1 = .ok (some u)) :
    u.status = none ∨ u.status = some "SUCCESS" ∨ u.status = some "REFUNDED" := by
  cases hfo : tenv.fundObserved with
  | none => simp_all [thorWaitForReceive]
  | some observed =>
    cases hoh : observed.outHash with
    | none => simp_all [thorWaitForReceive]
    | some rh =>
      cases hro : tenv.receiveObserved with
      | none => simp_all [thorWaitForReceive]
      | some robs =>
        cases hout : outMemoToStatus ((robs.memo.splitOn ":").headD "") with
        | none =>
          simp only [thorWaitForReceive, hfo, hoh, hro, hout] at h
          simp at h
        | some status =>
          have hstat : status = "SUCCESS" ∨ status = "REFUNDED" := by
            revert hout
            unfold outMemoToStatus
            split_ifs <;> intro hx <;> simp_all
          cases hrl : tenv.receiveTxLookup with
          | ok rtx =>
            cases rtx with
            | none =>
              simp only [thorWaitForReceive, hfo, hoh, hro, hout, hrl] at h
              simp at h
            | some t =>
              simp only [thorWaitForReceive, hfo, hoh, hro, hout, hrl] at h
              split_ifs at h <;> simp at h <;> (try subst h) <;>
                (try rcases hstat with hx | hx) <;> simp_all
          | error e =>
            simp only [thorWaitForReceive, hfo, hoh, hro, hout, hrl] at h
            split_ifs at h <;> simp at h

/-- Claim C7: in the polling confirmation handlers, a chain lookup that
fails with `TxNotFoundError` makes the tick return no result (`undefined`),
while a lookup failing with any other error name re-raises that error to the
caller.  Shown for Liquality's `confirmInitiation` (once the counterparty
probe produced nothing) and `waitForRefundConfirmations`, and Thorchain's
`waitForSendConfirmations`. -/
theorem polling_notFound_swallowed_other_rethrown (env : LiqEnv) (tenv : ThorEnv)
    (e : JsErr) :
    (env.findInitiateResult = .ok none → env.canRefund = false →
      env.swapExpired = false → env.fundTxLookup = .error e →
      (confirmInitiation env).1 =
        if e.name = "TxNotFoundError" then .ok none else .error e) ∧
    (env.refundTxLookup = .error e →
      (waitForRefundConfirmations env).1 =
        if e.name = "TxNotFoundError" then .ok none else .error e) ∧
    (tenv.sendTxLookup = .error e →
      (thorWaitForSendConfirmations tenv).1 =
        if e.name = "TxNotFoundError" then .ok none else .error e) := by
  refine ⟨?_, ?_, ?_⟩
  · intro h1 h2 h3 h4
    simp only [confirmInitiation, findCounterPartyInitiation, handleExpirations,
      h1, h2, h3, h4]
    split_ifs <;> simp_all
  · intro h
    simp only [waitForRefundConfirmations, h]
    split_ifs <;> simp_all
  · intro h
    simp only [thorWaitForSendConfirmations, h]
    split_ifs <;> simp_all

/-- Witness for C7: a `TxNotFoundError` lookup failure yields `undefined`
for Liquality's two handlers, while an `RpcError` is re-raised by
Thorchain's `waitForSendConfirmations`. -/
theorem polling_notFound_swallowed_witness :
    (confirmInitiation { fundTxLookup := .error { name := "TxNotFoundError" } }).1 =
      .ok none ∧
    (waitForRefundConfirmations
        { refundTxLookup := .error { name := "TxNotFoundError" } }).1 = .ok none ∧
    (thorWaitForSendConfirmations
        { sendTxLookup := .error { name := "RpcError" } }).1 =
      .error { name := "RpcError" } := by
  refine ⟨?_, ?_, ?_⟩
  · have h := (polling_notFound_swallowed_other_rethrown
      { fundTxLookup := .error { name := "TxNotFoundError" } } {}
      { name := "TxNotFoundError" }).1 rfl rfl rfl rfl
    simpa using h
  · have h := (polling_notFound_swallowed_other_rethrown
      { refundTxLookup := .error { name := "TxNotFoundError" } } {}
      { name := "TxNotFoundError" }).2.1 rfl
    simpa using h
  · have h := (polling_notFound_swallowed_other_rethrown {}
      { sendTxLookup := .error { name := "RpcError" } }
      { name := "RpcError" }).2.2 rfl
    simpa using h

/-- Claim C8: `hasChainTimePassed` performs at most 3 attempts of the chain
read, with a fixed `wait(2000)` between consecutive attempts; the first
successful attempt returns whether the latest block's timestamp strictly
exceeds the given timestamp, and if all 3 attempts fail the *last* error is
re-thrown.  The four cases are exhaustive, so no fourth attempt can occur. -/
theorem hasChainTimePassed_bounded_retry (oracle : ChainTimeOracle) (ts : ℤ) :
    (∀ b, oracle 0 = .ok b →
      hasChainTimePassed oracle ts = (.ok (decide (ts < b)), [.chainRead 0])) ∧
    (∀ e0 b, oracle 0 = .error e0 → oracle 1 = .ok b →
      hasChainTimePassed oracle ts =
        (.ok (decide (ts < b)), [.chainRead 0, .pause 2000, .chainRead 1])) ∧
    (∀ e0 e1 b, oracle 0 = .error e0 → oracle 1 = .error e1 → oracle 2 = .ok b →
      hasChainTimePassed oracle ts =
        (.ok (decide (ts < b)),
         [.chainRead 0, .pause 2000, .chainRead 1, .pause 2000, .chainRead 2])) ∧
    (∀ e0 e1 e2, oracle 0 = .error e0 → oracle 1 = .error e1 → oracle 2 = .error e2 →
      hasChainTimePassed oracle ts =
        (.error e2,
         [.chainRead 0, .pause 2000, .chainRead 1, .pause 2000, .chainRead 2])) := by
  refine ⟨?_, ?_, ?_, ?_⟩
  · intro b h0
    simp [hasChainTimePassed, hasChainTimePassedAux, h0]
  · intro e0 b h0 h1
    simp [hasChainTimePassed, hasChainTimePassedAux, h0, h1]
  · intro e0 e1 b h0 h1 h2
    simp [hasChainTimePassed, hasChainTimePassedAux, h0, h1, h2]
  · intro e0 e1 e2 h0 h1 h2
    simp [hasChainTimePassed, hasChainTimePassedAux, h0, h1, h2]

/-- Witness for C8: an oracle failing on the first read and succeeding on
the second (block timestamp 50, asked timestamp 40). -/
theorem hasChainTimePassed_bounded_retry_witness :
    hasChainTimePassed
        (fun i => if i = 0 then .error { name := "RpcError" } else .ok 50) 40 =
      (.ok true, [.chainRead 0, .pause 2000, .chainRead 1]) := by
  have h := (hasChainTimePassed_bounded_retry
    (fun i => if i = 0 then .error { name := "RpcError" } else .ok 50) 40).2.1
    { name := "RpcError" } 50 rfl rfl
  simpa using h

/-- `noNewData` on an `ok` lookup forces the truthiness confirmation check
to fail. -/
theorem noNewData_not_confirmed (tx : Option Tx)
    (h : noNewData (.ok tx) = true) : txHasConfirmations tx 1 = false := by
  cases tx with
  | none => rfl
  | some t =>
    cases hc : t.confirmations with
    | none => simp [txHasConfirmations, hc]
    | some c =>
      simp [noNewData, hc] at h
      simp [txHasConfirmations, hc, h]

/-- With no counterparty HTLC, no expiration and no new data on the own
funding transaction, `confirmInitiation` returns `undefined` with only
read-type actions in its trace. -/
theorem confirmInitiation_no_new_data (env : LiqEnv)
    (hfind : env.findInitiateResult = .ok none ∨
      env.findInitiateResult = .error { name := "TxNotFoundError" })
    (hcr : env.canRefund = false) (hse : env.swapExpired = false)
    (hfund : noNewData env.fundTxLookup = true) :
    confirmInitiation env = (.ok none, [.findInitTx, .expirationCheck, .getTx]) := by
  have hcp : findCounterPartyInitiation env = (.ok none, [.findInitTx, .expirationCheck]) := by
    rcases hfind with h | h <;>
      simp [findCounterPartyInitiation, handleExpirations, h, hcr, hse]
  cases hf : env.fundTxLookup with
  | ok tx =>
    have htc : txHasConfirmations tx 1 = false :=
      noNewData_not_confirmed tx (by rw [hf] at hfund; exact hfund)
    simp [confirmInitiation, hcp, hf, htc]
  | error e =>
    have hname : e.name = "TxNotFoundError" := by
      rw [hf] at hfund
      simpa [noNewData] using hfund
    simp [confirmInitiation, hcp, hf, hname]

/-- With no new data on the approval transaction, Thorchain's
`waitForApproveConfirmations` returns `undefined` after a single lookup. -/
theorem thorApprove_no_new_data (tenv : ThorEnv)
    (h : noNewData tenv.approveTxLookup = true) :
    thorWaitForApproveConfirmations tenv = (.ok none, [.getTx]) := by
  cases ha : tenv.approveTxLookup with
  | ok tx =>
    have htc : txHasConfirmations tx 1 = false :=
      noNewData_not_confirmed tx (by rw [ha] at h; exact h)
    simp [thorWaitForApproveConfirmations, ha, htc]
  | error e =>
    have hname : e.name = "TxNotFoundError" := by
      rw [ha] at h
      simpa [noNewData] using h
    simp [thorWaitForApproveConfirmations, ha, hname]

/-- Claim C9: when the chain reports no new data (transaction not found, or
found with zero confirmations), a waiting-status tick returns `undefined`
and performs no fund-moving action; the handlers are pure functions of the
environment, so a second tick against the unchanged chain state is the very
same value — no transaction is submitted on either call.  Shown for
Liquality's `confirmInitiation` and Thorchain's
`waitForApproveConfirmations`. -/
theorem transition_idempotent_no_new_data (env : LiqEnv) (tenv : ThorEnv)
    (hfind : env.findInitiateResult = .ok none ∨
      env.findInitiateResult = .error { name := "TxNotFoundError" })
    (hcr : env.canRefund = false) (hse : env.swapExpired = false)
    (hfund : noNewData env.fundTxLookup = true)
    (happrove : noNewData tenv.approveTxLookup = true) :
    (confirmInitiation env).1 = .ok none ∧
    ((confirmInitiation env).2.all fun a => !a.mutating) = true ∧
    (thorWaitForApproveConfirmations tenv).1 = .ok none ∧
    ((thorWaitForApproveConfirmations tenv).2.all fun a => !a.mutating) = true := by
  rw [confirmInitiation_no_new_data env hfind hcr hse hfund,
      thorApprove_no_new_data tenv happrove]
  exact ⟨rfl, rfl, rfl, rfl⟩

/-- Witness for C9: the default environments — every lookup returns null,
no expiration has passed. -/
theorem transition_idempotent_no_new_data_witness :
    (confirmInitiation {}).1 = .ok none ∧
    ((confirmInitiation {}).2.all fun a => !a.mutating) = true ∧
    (thorWaitForApproveConfirmations {}).1 = .ok none ∧
    ((thorWaitForApproveConfirmations {}).2.all fun a => !a.mutating) = true :=
  transition_idempotent_no_new_data {} {} (Or.inl rfl) rfl rfl rfl rfl

end WalletCore
